import Mathlib

/-!
Verification development for the scalper-trader signal engine
(`technical_analysis.py`).  Python floats are embedded as `ℚ`; a float
that may be NaN (an indicator that has not warmed up) is embedded as
`Option ℚ`, with `none` standing for NaN, so that every comparison
against NaN is `false`, exactly as in IEEE/Python semantics.  The
result dictionaries returned by the analyzer are embedded as
association lists from field names to `JVal` values.
-/

namespace Scalper

attribute [local semireducible] Rat.add Rat.sub Rat.mul Rat.inv

/-- Banker's rounding of a rational to an integer, mirroring the
rounding mode of Python's built-in `round`. -/
def roundHalfEven (q : ℚ) : ℤ :=
  let f := ⌊q⌋
  let r := q - (f : ℚ)
  if r < 1/2 then f
  else if 1/2 < r then f + 1
  else if f % 2 = 0 then f else f + 1

/-- `round(q, n)` from Python: round to `n` decimal places. -/
def roundTo (n : Nat) (q : ℚ) : ℚ :=
  (roundHalfEven (q * (10 : ℚ) ^ n) : ℚ) / (10 : ℚ) ^ n

/-- `round(q, 2)` — the rounding applied to all monetary outputs. -/
def round2 (q : ℚ) : ℚ := roundTo 2 q

/-- Python's builtin `abs` on a float. -/
def pyAbs (q : ℚ) : ℚ := if q < 0 then -q else q

/-- Python's builtin `min` on two floats. -/
def pyMin (a b : ℚ) : ℚ := if a ≤ b then a else b

/-- Python's builtin `max` on two floats. -/
def pyMax (a b : ℚ) : ℚ := if b ≤ a then a else b

/-- Comparison `a > b` on possibly-NaN floats: any comparison with
NaN is `false`. -/
def ogt : Option ℚ → Option ℚ → Bool
  | some a, some b => decide (b < a)
  | _, _ => false

/-- Comparison `a < b` on possibly-NaN floats. -/
def olt (a b : Option ℚ) : Bool := ogt b a

/-- A directional vote emitted by one scoring rule
(the strings "BUY"/"SELL" appended to `signals` in the source). -/
inductive Vote where
  | buy
  | sell
deriving DecidableEq, Repr

/-- The scalar inputs of `_generate_signal_from_indicators`.
`current_price`, `support` and `resistance` come from actual rows and
are never NaN; every other indicator may be NaN (`none`) when its
warm-up window is not met. -/
structure IndicatorInput where
  current_price : ℚ
  sma_20 : Option ℚ
  sma_50 : Option ℚ
  ema_12 : Option ℚ
  ema_26 : Option ℚ
  rsi : Option ℚ
  macd : Option ℚ
  macd_signal : Option ℚ
  bb_upper : Option ℚ
  bb_lower : Option ℚ
  bb_middle : Option ℚ
  stoch_k : Option ℚ
  stoch_d : Option ℚ
  support : ℚ
  resistance : ℚ
deriving DecidableEq, Repr

/-- Trend rule: `sma_20 > sma_50 and ema_12 > ema_26` → BUY,
`elif sma_20 < sma_50 and ema_12 < ema_26` → SELL. -/
def ruleTrend (i : IndicatorInput) : Option Vote :=
  if ogt i.sma_20 i.sma_50 && ogt i.ema_12 i.ema_26 then some .buy
  else if olt i.sma_20 i.sma_50 && olt i.ema_12 i.ema_26 then some .sell
  else none

/-- RSI rule: `rsi < 30` → BUY, `elif rsi > 70` → SELL. -/
def ruleRsi (i : IndicatorInput) : Option Vote :=
  if olt i.rsi (some 30) then some .buy
  else if ogt i.rsi (some 70) then some .sell
  else none

/-- MACD rule: `macd > macd_signal and macd > 0` → BUY,
`elif macd < macd_signal and macd < 0` → SELL. -/
def ruleMacd (i : IndicatorInput) : Option Vote :=
  if ogt i.macd i.macd_signal && ogt i.macd (some 0) then some .buy
  else if olt i.macd i.macd_signal && olt i.macd (some 0) then some .sell
  else none

/-- Bollinger rule: `current_price < bb_lower` → BUY,
`elif current_price > bb_upper` → SELL. -/
def ruleBollinger (i : IndicatorInput) : Option Vote :=
  if olt (some i.current_price) i.bb_lower then some .buy
  else if ogt (some i.current_price) i.bb_upper then some .sell
  else none

/-- Stochastic rule: `stoch_k < 20 and stoch_d < 20` → BUY,
`elif stoch_k > 80 and stoch_d > 80` → SELL. -/
def ruleStochastic (i : IndicatorInput) : Option Vote :=
  if olt i.stoch_k (some 20) && olt i.stoch_d (some 20) then some .buy
  else if ogt i.stoch_k (some 80) && ogt i.stoch_d (some 80) then some .sell
  else none

/-- Support/resistance proximity rule:
`abs(current_price - support) / current_price < 0.01` → BUY,
`elif abs(current_price - resistance) / current_price < 0.01` → SELL. -/
def ruleProximity (i : IndicatorInput) : Option Vote :=
  if pyAbs (i.current_price - i.support) / i.current_price < 1/100 then some .buy
  else if pyAbs (i.current_price - i.resistance) / i.current_price < 1/100 then some .sell
  else none

/-- The `signals` list: the votes appended by the six rules, in source
order. -/
def signalsOf (i : IndicatorInput) : List Vote :=
  [ruleTrend i, ruleRsi i, ruleMacd i, ruleBollinger i,
   ruleStochastic i, ruleProximity i].filterMap id

/-- The `confidence_factors` list: the per-rule weight appended next to
each vote.  The source builds this list but never reads it. -/
def confidenceFactors (i : IndicatorInput) : List ℚ :=
  [(ruleTrend i).map (fun _ => (25 : ℚ)/100),
   (ruleRsi i).map (fun _ => (20 : ℚ)/100),
   (ruleMacd i).map (fun _ => (15 : ℚ)/100),
   (ruleBollinger i).map (fun _ => (15 : ℚ)/100),
   (ruleStochastic i).map (fun _ => (10 : ℚ)/100),
   (ruleProximity i).map (fun _ => (15 : ℚ)/100)].filterMap id

/-- `buy_signals = signals.count("BUY")`. -/
def buySignals (i : IndicatorInput) : Nat := (signalsOf i).count .buy

/-- `sell_signals = signals.count("SELL")`. -/
def sellSignals (i : IndicatorInput) : Nat := (signalsOf i).count .sell

/-- The `action` chosen from the raw vote counts. -/
def actionOf (i : IndicatorInput) : String :=
  if buySignals i > sellSignals i then "BUY"
  else if sellSignals i > buySignals i then "SELL"
  else "HOLD"

/-- The `confidence` integer: `min(95, 60 + winning * 8)` for
BUY/SELL, `50` for HOLD. -/
def confidenceOf (i : IndicatorInput) : Nat :=
  if buySignals i > sellSignals i then min 95 (60 + buySignals i * 8)
  else if sellSignals i > buySignals i then min 95 (60 + sellSignals i * 8)
  else 50

/-- `entry = current_price`. -/
def entryOf (i : IndicatorInput) : ℚ := i.current_price

/-- The `take_profit` value computed before rounding. -/
def takeProfitVal (i : IndicatorInput) : ℚ :=
  if actionOf i = "BUY" then pyMin i.resistance (entryOf i * (102/100))
  else if actionOf i = "SELL" then pyMax i.support (entryOf i * (98/100))
  else entryOf i

/-- The `stop_loss` value computed before rounding. -/
def stopLossVal (i : IndicatorInput) : ℚ :=
  if actionOf i = "BUY" then pyMax i.support (entryOf i * (985/1000))
  else if actionOf i = "SELL" then pyMin i.resistance (entryOf i * (1015/1000))
  else entryOf i

/-- The pattern flags returned by `_detect_chart_patterns`
(dictionary keys `trend_lines`, `bullish_pattern`, `bearish_pattern`). -/
structure Patterns where
  trend_lines : Nat
  bullish_pattern : Bool
  bearish_pattern : Bool
deriving DecidableEq, Repr

/-- A value stored in a result dictionary. -/
inductive JVal where
  | s (v : String)
  | num (v : Option ℚ)
  | b (v : Bool)
  | ind (rsi macd sma20 sma50 : Option ℚ) (support resistance : ℚ)
  | pat (p : Patterns)
deriving DecidableEq, Repr

/-- The dictionary returned by `_generate_signal_from_indicators`. -/
def generateSignalFromIndicators (i : IndicatorInput) (timeframe : String) :
    List (String × JVal) :=
  [("action", .s (actionOf i)),
   ("entry", .num (some (round2 (entryOf i)))),
   ("take_profit", .num (some (round2 (takeProfitVal i)))),
   ("stop_loss", .num (some (round2 (stopLossVal i)))),
   ("confidence", .s (Nat.repr (confidenceOf i) ++ "%")),
   ("timeframe", .s timeframe),
   ("indicators", .ind (i.rsi.map round2) (i.macd.map (roundTo 4))
      (i.sma_20.map round2) (i.sma_50.map round2)
      (round2 i.support) (round2 i.resistance)),
   ("analysis_type", .s "technical_indicators")]

/-- A detected line segment `(x1, y1, x2, y2)` as returned by the
Hough transform. -/
abbrev LineSeg := ℤ × ℤ × ℤ × ℤ

/-- The mean of the per-line angles (`np.mean(angles)`).  The angle of
a single line is `arctan2(y2-y1, x2-x1) * 180 / pi`, computed by the
external numpy library; it is abstracted here as a parameter `angle`
since its exact real value never matters to the classification. -/
def meanAngle (angle : LineSeg → ℚ) (l : List LineSeg) : ℚ :=
  (l.map angle).sum / ((l.map angle).length : ℚ)

/-- `_detect_chart_patterns` from the detected-lines step onward:
`lines = none` models `HoughLinesP` returning `None`. -/
def detectChartPatterns (angle : LineSeg → ℚ) (lines : Option (List LineSeg)) :
    Patterns :=
  match lines with
  | none => { trend_lines := 0, bullish_pattern := false, bearish_pattern := false }
  | some l =>
    let avg := meanAngle angle l
    if 10 < avg then
      { trend_lines := l.length, bullish_pattern := true, bearish_pattern := false }
    else if avg < -10 then
      { trend_lines := l.length, bullish_pattern := false, bearish_pattern := true }
    else
      { trend_lines := l.length, bullish_pattern := false, bearish_pattern := false }

/-- The dictionary returned by `_generate_image_based_signal`.
`base_price` is the value drawn by `np.random.uniform(1800, 2100)`,
passed here as an explicit argument. -/
def generateImageBasedSignal (patterns : Patterns) (timeframe : String)
    (base_price : ℚ) : List (String × JVal) :=
  let action := if patterns.bullish_pattern then "BUY"
    else if patterns.bearish_pattern then "SELL" else "HOLD"
  let confidence : Nat := if patterns.bullish_pattern then 75
    else if patterns.bearish_pattern then 75 else 60
  let entry := base_price
  let take_profit := if action = "BUY" then entry * (1025/1000)
    else if action = "SELL" then entry * (975/1000) else entry
  let stop_loss := if action = "BUY" then entry * (985/1000)
    else if action = "SELL" then entry * (1015/1000) else entry
  [("action", .s action),
   ("entry", .num (some (round2 entry))),
   ("take_profit", .num (some (round2 take_profit))),
   ("stop_loss", .num (some (round2 stop_loss))),
   ("confidence", .s (Nat.repr confidence ++ "%")),
   ("timeframe", .s timeframe),
   ("patterns", .pat patterns),
   ("analysis_type", .s "chart_pattern")]

/-- The dictionary returned by `_generate_error_signal`. -/
def generateErrorSignal (message : String) : List (String × JVal) :=
  [("error", .b true),
   ("message", .s message),
   ("action", .s "HOLD"),
   ("entry", .num (some 0)),
   ("take_profit", .num (some 0)),
   ("stop_loss", .num (some 0)),
   ("confidence", .s "0%"),
   ("analysis_type", .s "error")]

/-- One cleaned OHLC row.  `open_price` matches the source's local
name for the `open` column. -/
structure Candle where
  open_price : ℚ
  high : ℚ
  low : ℚ
  close : ℚ
deriving DecidableEq, Repr

/-- A raw parsed table: header names plus rows of cells already taken
through `pd.to_numeric(..., errors="coerce")`, so a cell is `none`
when it was missing or not numeric. -/
structure RawTable where
  headers : List String
  rows : List (List (Option ℚ))

/-- The `column_mapping` dictionary of `analyze_csv_data`. -/
def columnMapping : List (String × String) :=
  [("timestamp", "time"), ("datetime", "time"), ("date", "time"),
   ("o", "open"), ("h", "high"), ("l", "low"), ("c", "close"), ("v", "volume")]

/-- ASCII model of `str.lower` on one character. -/
def lowerChar (c : Char) : Char :=
  if c.isUpper then Char.ofNat (c.toNat + 32) else c

/-- ASCII model of `str.lower` on a string. -/
def lowerStr (s : String) : String := String.mk (s.data.map lowerChar)

/-- Whitespace test used by `str.strip`. -/
def isWsChar (c : Char) : Bool := c.isWhitespace

/-- Model of `str.strip`: drop whitespace from both ends. -/
def trimStr (s : String) : String :=
  String.mk (((s.data.dropWhile isWsChar).reverse.dropWhile isWsChar).reverse)

/-- Lowercase, strip, then apply the synonym mapping to one header. -/
def normalizeHeader (h : String) : String :=
  let h := trimStr (lowerStr h)
  match columnMapping.lookup h with
  | some n => n
  | none => h

/-- All headers after normalization. -/
def normHeaders (t : RawTable) : List String := t.headers.map normalizeHeader

/-- `required_cols = ["open", "high", "low", "close"]`. -/
def requiredCols : List String := ["open", "high", "low", "close"]

/-- `all(col in df.columns for col in required_cols)`. -/
def hasRequiredCols (t : RawTable) : Bool :=
  requiredCols.all (fun c => (normHeaders t).contains c)

/-- Index of a named column among the normalized headers. -/
def colIdx (hs : List String) (c : String) : Option Nat :=
  hs.findIdx? (fun h => h == c)

/-- Read one cell of a row at an optional column index. -/
def getCell (row : List (Option ℚ)) : Option Nat → Option ℚ
  | some i => row.getD i none
  | none => none

/-- A row survives `dropna(subset=required_cols)` exactly when all
four required cells are numeric; it then yields a `Candle`. -/
def rowCandle (hs : List String) (row : List (Option ℚ)) : Option Candle :=
  match getCell row (colIdx hs "open"), getCell row (colIdx hs "high"),
        getCell row (colIdx hs "low"), getCell row (colIdx hs "close") with
  | some o, some h, some l, some c =>
    some { open_price := o, high := h, low := l, close := c }
  | _, _, _, _ => none

/-- The cleaned frame: numeric coercion on the required columns
followed by `dropna`. -/
def cleanRows (t : RawTable) : List Candle :=
  t.rows.filterMap (rowCandle (normHeaders t))

/-- The trailing `n` elements of a list (`Series.tail(n)`). -/
def lastN (n : Nat) (l : List ℚ) : List ℚ := l.drop (l.length - n)

/-- Minimum of a list (`Series.min()`), `none` on an empty series. -/
def listMin : List ℚ → Option ℚ
  | [] => none
  | x :: xs => some (xs.foldl pyMin x)

/-- Maximum of a list (`Series.max()`), `none` on an empty series. -/
def listMax : List ℚ → Option ℚ
  | [] => none
  | x :: xs => some (xs.foldl pyMax x)

/-- Modelled from the spec: the external `ta.trend.sma_indicator` call
(simple moving average); its last value, NaN (`none`) when fewer than
`window` rows exist. -/
def smaLast (window : Nat) (closes : List ℚ) : Option ℚ :=
  if window ≤ closes.length then
    some ((lastN window closes).sum / (window : ℚ))
  else none

/-- One step of an exponential weighted mean. -/
def emaStep (alpha e x : ℚ) : ℚ := alpha * x + (1 - alpha) * e

/-- Modelled from the spec: the external `ta.trend.ema_indicator` call
(exponential moving average, smoothing `2/(window+1)`); its last
value, NaN (`none`) when fewer than `window` rows exist. -/
def emaLast (window : Nat) : List ℚ → Option ℚ
  | [] => none
  | x :: xs =>
    if window ≤ xs.length + 1 then
      some (xs.foldl (emaStep (2 / ((window : ℚ) + 1))) x)
    else none

/-- First differences of a series. -/
def diffs : List ℚ → List ℚ
  | [] => []
  | [_] => []
  | a :: b :: rest => (b - a) :: diffs (b :: rest)

/-- Wilder's recursive smoothing with period `w`. -/
def wilderSmooth (w init : ℚ) (xs : List ℚ) : ℚ :=
  xs.foldl (fun acc x => (acc * (w - 1) + x) / w) init

/-- Modelled from the spec: the external `ta.momentum.rsi` call
(Wilder RSI, `100 * avgGain / (avgGain + avgLoss)`); NaN (`none`)
below the warm-up window. -/
def rsiLast (window : Nat) (closes : List ℚ) : Option ℚ :=
  let d := diffs closes
  if window ≤ d.length then
    let gains := d.map (fun x => pyMax x 0)
    let losses := d.map (fun x => pyMax (-x) 0)
    let avgGain := wilderSmooth (window : ℚ) ((gains.take window).sum / (window : ℚ)) (gains.drop window)
    let avgLoss := wilderSmooth (window : ℚ) ((losses.take window).sum / (window : ℚ)) (losses.drop window)
    if avgGain + avgLoss = 0 then some 50
    else some (100 * avgGain / (avgGain + avgLoss))
  else none

/-- Modelled from the spec: `ta.trend.macd`, the last MACD-line value
`EMA12 - EMA26`; NaN (`none`) until both EMAs are warm. -/
def macdLineLast (closes : List ℚ) : Option ℚ :=
  match emaLast 12 closes, emaLast 26 closes with
  | some a, some b => some (a - b)
  | _, _ => none

/-- The MACD-line series: its value at each prefix where defined. -/
def macdSeries (closes : List ℚ) : List ℚ :=
  (List.range closes.length).filterMap (fun i => macdLineLast (closes.take (i + 1)))

/-- Modelled from the spec: `ta.trend.macd_signal`, the EMA with
window 9 of the MACD line. -/
def macdSignalLast (closes : List ℚ) : Option ℚ := emaLast 9 (macdSeries closes)

/-- A rational under-approximation of the square root, used only for
the Bollinger standard deviation (the exact value is irrational and no
claim depends on the band values). -/
def sqrtApprox (q : ℚ) : ℚ := (Nat.sqrt (q.num.toNat * q.den) : ℚ) / (q.den : ℚ)

/-- Modelled from the spec: sample standard deviation over the last
`window` closes (`ddof = 1`), with the square root approximated. -/
def stdLast (window : Nat) (closes : List ℚ) : Option ℚ :=
  if window ≤ closes.length then
    let w := lastN window closes
    let m := w.sum / (window : ℚ)
    some (sqrtApprox ((w.map (fun x => (x - m) ^ 2)).sum / ((window : ℚ) - 1)))
  else none

/-- Modelled from the spec: `ta.volatility.bollinger_hband`,
`middle + 2 * std` over window 20. -/
def bbUpperLast (closes : List ℚ) : Option ℚ :=
  match smaLast 20 closes, stdLast 20 closes with
  | some m, some s => some (m + 2 * s)
  | _, _ => none

/-- Modelled from the spec: `ta.volatility.bollinger_lband`,
`middle - 2 * std` over window 20. -/
def bbLowerLast (closes : List ℚ) : Option ℚ :=
  match smaLast 20 closes, stdLast 20 closes with
  | some m, some s => some (m - 2 * s)
  | _, _ => none

/-- Modelled from the spec: `ta.volatility.bollinger_mavg`, the SMA20. -/
def bbMiddleLast (closes : List ℚ) : Option ℚ := smaLast 20 closes

/-- Modelled from the spec: `ta.momentum.stoch`, the last %K value
over a 14-period high/low lookback. -/
def stochKLast (highs lows closes : List ℚ) : Option ℚ :=
  if 14 ≤ closes.length then
    match listMin (lastN 14 lows), listMax (lastN 14 highs), closes.getLast? with
    | some lo, some hi, some c => some (100 * (c - lo) / (hi - lo))
    | _, _, _ => none
  else none

/-- The %K series: its value at each prefix where defined. -/
def stochKSeries (highs lows closes : List ℚ) : List ℚ :=
  (List.range closes.length).filterMap
    (fun i => stochKLast (highs.take (i + 1)) (lows.take (i + 1)) (closes.take (i + 1)))

/-- Modelled from the spec: `ta.momentum.stoch_signal`, the 3-period
SMA of %K. -/
def stochDLast (highs lows closes : List ℚ) : Option ℚ :=
  smaLast 3 (stochKSeries highs lows closes)

/-- The last 20 candles (`df.tail(20)`). -/
def tail20 (df : List Candle) : List Candle := df.drop (df.length - 20)

/-- `_find_support_resistance`: support = lowest low over the last 20
candles. -/
def supportOf (df : List Candle) : Option ℚ := listMin ((tail20 df).map Candle.low)

/-- `_find_support_resistance`: resistance = highest high over the
last 20 candles. -/
def resistanceOf (df : List Candle) : Option ℚ := listMax ((tail20 df).map Candle.high)

/-- The `IndicatorInput` assembled by `_calculate_indicators` from the
last value of every indicator series (the defaults of `getD` are
unreachable because the frame has at least 20 rows at every call site). -/
def indicatorInputOf (df : List Candle) : IndicatorInput :=
  let closes := df.map Candle.close
  let highs := df.map Candle.high
  let lows := df.map Candle.low
  { current_price := (closes.getLast?).getD 0
    sma_20 := smaLast 20 closes
    sma_50 := smaLast 50 closes
    ema_12 := emaLast 12 closes
    ema_26 := emaLast 26 closes
    rsi := rsiLast 14 closes
    macd := macdLineLast closes
    macd_signal := macdSignalLast closes
    bb_upper := bbUpperLast closes
    bb_lower := bbLowerLast closes
    bb_middle := bbMiddleLast closes
    stoch_k := stochKLast highs lows closes
    stoch_d := stochDLast highs lows closes
    support := (supportOf df).getD 0
    resistance := (resistanceOf df).getD 0 }

/-- `_calculate_indicators`. -/
def calculateIndicators (df : List Candle) (timeframe : String) :
    List (String × JVal) :=
  generateSignalFromIndicators (indicatorInputOf df) timeframe

/-- A required column label that occurs more than once after
normalization (e.g. headers `Open` and `open `, or `o` next to
`open`).  On such frames `df[col]` yields a DataFrame and
`pd.to_numeric(df[col], errors="coerce")` raises, so the
`except` clause of `analyze_csv_data` returns the wrapped
"CSV analysis failed" ErrorSignal. -/
def hasDuplicateRequired (t : RawTable) : Bool :=
  requiredCols.any (fun c => 2 ≤ (normHeaders t).count c)

/-- Modelled from the spec: the text of the pandas exception raised
by `pd.to_numeric` on a duplicated column selection is internal to
the external pandas library; only the `CSV analysis failed: ` context
that line 56 wraps around `str(e)` matters downstream, and no claim
depends on this suffix. -/
def pandasToNumericError : String :=
  "arg must be a list, tuple, 1-d array, or Series"

/-- `analyze_csv_data` after CSV parsing: validation, the
duplicate-label exception path of the numeric-coercion loop, then
indicator computation. -/
def analyzeCsvData (t : RawTable) (timeframe : String) : List (String × JVal) :=
  if hasRequiredCols t then
    if hasDuplicateRequired t then
      generateErrorSignal ("CSV analysis failed: " ++ pandasToNumericError)
    else if (cleanRows t).length < 20 then
      generateErrorSignal "Insufficient data for analysis (minimum 20 candles required)"
    else calculateIndicators (cleanRows t) timeframe
  else
    generateErrorSignal "Invalid CSV format. Required columns: Open, High, Low, Close"

/-! ## Concrete inputs used by witnesses and counterexamples -/

/-- The spec's worked example: trend and RSI vote BUY, every other
rule abstains — exactly 2 BUY votes and 0 SELL votes. -/
def exTwoBuyVotes : IndicatorInput :=
  { current_price := 100, sma_20 := some 2, sma_50 := some 1,
    ema_12 := some 2, ema_26 := some 1, rsi := some 25,
    macd := some 1, macd_signal := some 2,
    bb_upper := some 150, bb_lower := some 50, bb_middle := some 100,
    stoch_k := some 50, stoch_d := some 50,
    support := 50, resistance := 150 }

/-- A single BUY vote (RSI oversold), every other rule abstains. -/
def exOneBuyVote : IndicatorInput :=
  { current_price := 100, sma_20 := none, sma_50 := none,
    ema_12 := none, ema_26 := none, rsi := some 25,
    macd := none, macd_signal := none,
    bb_upper := none, bb_lower := none, bb_middle := none,
    stoch_k := none, stoch_d := none,
    support := 50, resistance := 150 }

/-- A BUY input whose support level (200) sits above the entry
price (100). -/
def exSupportAboveEntry : IndicatorInput :=
  { current_price := 100, sma_20 := none, sma_50 := none,
    ema_12 := none, ema_26 := none, rsi := some 25,
    macd := none, macd_signal := none,
    bb_upper := none, bb_lower := none, bb_middle := none,
    stoch_k := none, stoch_d := none,
    support := 200, resistance := 150 }

/-- A BUY input with support (90) below and resistance (150) above
the entry price (100). -/
def exBuyOrdered : IndicatorInput :=
  { current_price := 100, sma_20 := none, sma_50 := none,
    ema_12 := none, ema_26 := none, rsi := some 25,
    macd := none, macd_signal := none,
    bb_upper := none, bb_lower := none, bb_middle := none,
    stoch_k := none, stoch_d := none,
    support := 90, resistance := 150 }

/-- A valid upload: mixed-case headers, 20 clean rows. -/
def csvTable20 : RawTable :=
  { headers := ["Open", "High", "Low", "Close"],
    rows := List.replicate 20 [some 1, some 3, some 1, some 2] }

/-- Only 19 clean rows. -/
def csvTable19 : RawTable :=
  { headers := ["open", "high", "low", "close"],
    rows := List.replicate 19 [some 1, some 3, some 1, some 2] }

/-- The `low` column is entirely absent. -/
def csvTableNoLow : RawTable :=
  { headers := ["open", "high", "close"],
    rows := List.replicate 25 [some 1, some 3, some 2] }

/-- A one-candle frame with low ≤ close ≤ high. -/
def exFrame : List Candle := [{ open_price := 1, high := 3, low := 1, close := 2 }]

/-- 20 clean rows, but the headers `Open` and `open ` both normalize
to `open`, so the real pipeline raises inside `pd.to_numeric`. -/
def csvTableDup : RawTable :=
  { headers := ["Open", "open ", "high", "low", "close"],
    rows := List.replicate 20 [some 1, some 1, some 3, some 1, some 2] }

/-- A BUY input (entry 0.01, support 0.005, resistance 1) whose
stop_loss 0.00985 rounds to the same cent as the entry. -/
def exRoundCollapse : IndicatorInput :=
  { current_price := 1/100, sma_20 := none, sma_50 := none,
    ema_12 := none, ema_26 := none, rsi := some 25,
    macd := none, macd_signal := none,
    bb_upper := none, bb_lower := none, bb_middle := none,
    stoch_k := none, stoch_d := none,
    support := 1/200, resistance := 1 }

/-- A SELL input (RSI overbought) whose support level (200) sits
above the entry price (100). -/
def exSellSupportAbove : IndicatorInput :=
  { current_price := 100, sma_20 := none, sma_50 := none,
    ema_12 := none, ema_26 := none, rsi := some 75,
    macd := none, macd_signal := none,
    bb_upper := none, bb_lower := none, bb_middle := none,
    stoch_k := none, stoch_d := none,
    support := 200, resistance := 150 }

/-- A SELL input whose resistance level (90) sits below the entry
price (100). -/
def exSellLowResistance : IndicatorInput :=
  { current_price := 100, sma_20 := none, sma_50 := none,
    ema_12 := none, ema_26 := none, rsi := some 75,
    macd := none, macd_signal := none,
    bb_upper := none, bb_lower := none, bb_middle := none,
    stoch_k := none, stoch_d := none,
    support := 50, resistance := 90 }

/-- A SELL input with a negative entry price (-100): RSI and the
stochastic vote SELL, the proximity rule votes BUY (a negative
denominator makes its ratio negative), so SELL still wins 2-1. -/
def exSellNegEntry : IndicatorInput :=
  { current_price := -100, sma_20 := none, sma_50 := none,
    ema_12 := none, ema_26 := none, rsi := some 75,
    macd := none, macd_signal := none,
    bb_upper := none, bb_lower := none, bb_middle := none,
    stoch_k := some 90, stoch_d := some 90,
    support := -200, resistance := -50 }

/-! ## Helper lemmas -/

lemma pyMin_eq (a b : ℚ) : pyMin a b = min a b := by
  unfold pyMin
  by_cases h : a ≤ b
  · rw [if_pos h, min_eq_left h]
  · rw [if_neg h, min_eq_right (le_of_not_le h)]

lemma pyMax_eq (a b : ℚ) : pyMax a b = max a b := by
  unfold pyMax
  by_cases h : b ≤ a
  · rw [if_pos h, max_eq_left h]
  · rw [if_neg h, max_eq_right (le_of_not_le h)]

lemma pyMin_le_left (a b : ℚ) : pyMin a b ≤ a := by
  unfold pyMin
  by_cases h : a ≤ b
  · rw [if_pos h]
  · rw [if_neg h]; exact le_of_not_le h

lemma pyMin_le_right (a b : ℚ) : pyMin a b ≤ b := by
  unfold pyMin
  by_cases h : a ≤ b
  · rw [if_pos h]; exact h
  · rw [if_neg h]

lemma le_pyMax_left (a b : ℚ) : a ≤ pyMax a b := by
  unfold pyMax
  by_cases h : b ≤ a
  · rw [if_pos h]
  · rw [if_neg h]; exact le_of_not_le h

lemma le_pyMax_right (a b : ℚ) : b ≤ pyMax a b := by
  unfold pyMax
  by_cases h : b ≤ a
  · rw [if_pos h]; exact h
  · rw [if_neg h]

lemma pyMax_lt {a b c : ℚ} (h1 : a < c) (h2 : b < c) : pyMax a b < c := by
  unfold pyMax; split <;> assumption

lemma lt_pyMin {a b c : ℚ} (h1 : c < a) (h2 : c < b) : c < pyMin a b := by
  unfold pyMin; split <;> assumption

lemma action_eq_buy_iff (i : IndicatorInput) :
    actionOf i = "BUY" ↔ sellSignals i < buySignals i := by
  by_cases h : sellSignals i < buySignals i
  · simp [actionOf, h]
  · simp only [actionOf, gt_iff_lt, if_neg h]
    constructor
    · intro hc; split at hc <;> simp_all
    · intro hc; exact absurd hc h

lemma foldl_pyMin_le_init (xs : List ℚ) : ∀ a : ℚ, xs.foldl pyMin a ≤ a := by
  induction xs with
  | nil => intro a; exact le_refl a
  | cons y ys ih =>
    intro a
    exact le_trans (ih (pyMin a y)) (pyMin_le_left a y)

lemma foldl_pyMin_le_mem (xs : List ℚ) :
    ∀ (a x : ℚ), x ∈ xs → xs.foldl pyMin a ≤ x := by
  induction xs with
  | nil => intro a x hx; cases hx
  | cons y ys ih =>
    intro a x hx
    rcases List.mem_cons.mp hx with h | h
    · subst h
      exact le_trans (foldl_pyMin_le_init ys (pyMin a x)) (pyMin_le_right a x)
    · exact ih (pyMin a y) x h

lemma init_le_foldl_pyMax (xs : List ℚ) : ∀ a : ℚ, a ≤ xs.foldl pyMax a := by
  induction xs with
  | nil => intro a; exact le_refl a
  | cons y ys ih =>
    intro a
    exact le_trans (le_pyMax_left a y) (ih (pyMax a y))

lemma mem_le_foldl_pyMax (xs : List ℚ) :
    ∀ (a x : ℚ), x ∈ xs → x ≤ xs.foldl pyMax a := by
  induction xs with
  | nil => intro a x hx; cases hx
  | cons y ys ih =>
    intro a x hx
    rcases List.mem_cons.mp hx with h | h
    · subst h
      exact le_trans (le_pyMax_right a x) (init_le_foldl_pyMax ys (pyMax a x))
    · exact ih (pyMax a y) x h

lemma listMin_spec (l : List ℚ) (x : ℚ) (hx : x ∈ l) :
    ∃ m, listMin l = some m ∧ m ≤ x := by
  cases l with
  | nil => cases hx
  | cons y ys =>
    refine ⟨ys.foldl pyMin y, rfl, ?_⟩
    rcases List.mem_cons.mp hx with h | h
    · subst h; exact foldl_pyMin_le_init ys x
    · exact foldl_pyMin_le_mem ys y x h

lemma listMax_spec (l : List ℚ) (x : ℚ) (hx : x ∈ l) :
    ∃ m, listMax l = some m ∧ x ≤ m := by
  cases l with
  | nil => cases hx
  | cons y ys =>
    refine ⟨ys.foldl pyMax y, rfl, ?_⟩
    rcases List.mem_cons.mp hx with h | h
    · subst h; exact init_le_foldl_pyMax ys x
    · exact mem_le_foldl_pyMax ys y x h

/-! ## Claims -/

/-- C1: the action and confidence are determined solely by the raw
vote counts: BUY when BUY votes exceed SELL votes, SELL when SELL
votes exceed BUY votes, HOLD otherwise; confidence is
`min(95, 60 + 8 * winning_count)` for BUY/SELL and exactly 50 for
HOLD (the per-rule weights are never summed into confidence), and the
returned dictionary carries exactly these values.  In particular the
input with exactly 2 BUY votes and 0 SELL votes yields BUY with
confidence 76. -/
theorem vote_count_scoring :
    (∀ a b : IndicatorInput, buySignals a = buySignals b →
      sellSignals a = sellSignals b →
      actionOf a = actionOf b ∧ confidenceOf a = confidenceOf b) ∧
    (∀ (i : IndicatorInput) (tf : String),
      (sellSignals i < buySignals i →
        actionOf i = "BUY" ∧ confidenceOf i = min 95 (60 + 8 * buySignals i)) ∧
      (buySignals i < sellSignals i →
        actionOf i = "SELL" ∧ confidenceOf i = min 95 (60 + 8 * sellSignals i)) ∧
      (buySignals i = sellSignals i →
        actionOf i = "HOLD" ∧ confidenceOf i = 50) ∧
      List.lookup "action" (generateSignalFromIndicators i tf) =
        some (.s (actionOf i)) ∧
      List.lookup "confidence" (generateSignalFromIndicators i tf) =
        some (.s (Nat.repr (confidenceOf i) ++ "%"))) ∧
    (buySignals exTwoBuyVotes = 2 ∧ sellSignals exTwoBuyVotes = 0 ∧
      actionOf exTwoBuyVotes = "BUY" ∧ confidenceOf exTwoBuyVotes = 76) := by
  refine ⟨?_, ?_, by decide⟩
  · intro a b h1 h2
    constructor
    · simp only [actionOf, h1, h2]
    · simp only [confidenceOf, h1, h2]
  · intro i tf
    refine ⟨?_, ?_, ?_, rfl, rfl⟩
    · intro h
      constructor
      · simp [actionOf, h]
      · simp [confidenceOf, h, Nat.mul_comm]
    · intro h
      constructor
      · simp [actionOf, h, Nat.lt_asymm h]
      · simp [confidenceOf, h, Nat.lt_asymm h, Nat.mul_comm]
    · intro h
      constructor
      · simp [actionOf, h]
      · simp [confidenceOf, h]

/-- Witness for C1 at the two-BUY-vote input, discharging the
vote-count hypothesis by computation. -/
theorem vote_count_scoring_witness :
    actionOf exTwoBuyVotes = "BUY" ∧
    confidenceOf exTwoBuyVotes = min 95 (60 + 8 * buySignals exTwoBuyVotes) :=
  (vote_count_scoring.2.1 exTwoBuyVotes "1h").1 (by decide)

/-- C2: after the action is decided, entry = current close price;
BUY gives take_profit = min(resistance, entry*1.02) and
stop_loss = max(support, entry*0.985); SELL gives
take_profit = max(support, entry*0.98) and
stop_loss = min(resistance, entry*1.015); HOLD gives
take_profit = stop_loss = entry; all of entry, take_profit and
stop_loss in the returned dictionary are rounded to 2 decimal places
(each equals an integer number of hundredths). -/
theorem price_target_derivation :
    ∀ (i : IndicatorInput) (tf : String),
      List.lookup "entry" (generateSignalFromIndicators i tf) =
        some (.num (some (round2 i.current_price))) ∧
      (actionOf i = "BUY" →
        List.lookup "take_profit" (generateSignalFromIndicators i tf) =
          some (.num (some (round2 (min i.resistance (i.current_price * (102/100)))))) ∧
        List.lookup "stop_loss" (generateSignalFromIndicators i tf) =
          some (.num (some (round2 (max i.support (i.current_price * (985/1000))))))) ∧
      (actionOf i = "SELL" →
        List.lookup "take_profit" (generateSignalFromIndicators i tf) =
          some (.num (some (round2 (max i.support (i.current_price * (98/100)))))) ∧
        List.lookup "stop_loss" (generateSignalFromIndicators i tf) =
          some (.num (some (round2 (min i.resistance (i.current_price * (1015/1000))))))) ∧
      (actionOf i = "HOLD" →
        List.lookup "take_profit" (generateSignalFromIndicators i tf) =
          some (.num (some (round2 i.current_price))) ∧
        List.lookup "stop_loss" (generateSignalFromIndicators i tf) =
          some (.num (some (round2 i.current_price)))) ∧
      (∃ k1 k2 k3 : ℤ,
        round2 (entryOf i) = (k1 : ℚ) / 100 ∧
        round2 (takeProfitVal i) = (k2 : ℚ) / 100 ∧
        round2 (stopLossVal i) = (k3 : ℚ) / 100) := by
  intro i tf
  refine ⟨rfl, ?_, ?_, ?_, ?_⟩
  · intro h
    constructor
    · have : takeProfitVal i = min i.resistance (i.current_price * (102/100)) := by
        simp [takeProfitVal, h, pyMin_eq, entryOf]
      simp only [generateSignalFromIndicators, List.lookup, this]
      rfl
    · have : stopLossVal i = max i.support (i.current_price * (985/1000)) := by
        simp [stopLossVal, h, pyMax_eq, entryOf]
      simp only [generateSignalFromIndicators, List.lookup, this]
      rfl
  · intro h
    constructor
    · have : takeProfitVal i = max i.support (i.current_price * (98/100)) := by
        simp [takeProfitVal, h, pyMax_eq, entryOf]
      simp only [generateSignalFromIndicators, List.lookup, this]
      rfl
    · have : stopLossVal i = min i.resistance (i.current_price * (1015/1000)) := by
        simp [stopLossVal, h, pyMin_eq, entryOf]
      simp only [generateSignalFromIndicators, List.lookup, this]
      rfl
  · intro h
    constructor
    · have : takeProfitVal i = i.current_price := by
        simp [takeProfitVal, h, entryOf]
      simp only [generateSignalFromIndicators, List.lookup, this]
      rfl
    · have : stopLossVal i = i.current_price := by
        simp [stopLossVal, h, entryOf]
      simp only [generateSignalFromIndicators, List.lookup, this]
      rfl
  · exact ⟨roundHalfEven (entryOf i * (10:ℚ)^2),
      roundHalfEven (takeProfitVal i * (10:ℚ)^2),
      roundHalfEven (stopLossVal i * (10:ℚ)^2),
      by norm_num [round2, roundTo], by norm_num [round2, roundTo],
      by norm_num [round2, roundTo]⟩

/-- Witness for C2 at a concrete BUY input. -/
theorem price_target_derivation_witness :
    List.lookup "take_profit" (generateSignalFromIndicators exTwoBuyVotes "1h") =
      some (.num (some (round2 (min exTwoBuyVotes.resistance
        (exTwoBuyVotes.current_price * (102/100)))))) ∧
    List.lookup "stop_loss" (generateSignalFromIndicators exTwoBuyVotes "1h") =
      some (.num (some (round2 (max exTwoBuyVotes.support
        (exTwoBuyVotes.current_price * (985/1000)))))) :=
  (price_target_derivation exTwoBuyVotes "1h").2.1 (by decide)

/-- C6: with the SELL vote count fixed, a strictly larger BUY vote
count never yields a smaller confidence when both inputs resolve to
action BUY. -/
theorem confidence_monotone_in_votes :
    ∀ a b : IndicatorInput, sellSignals a = sellSignals b →
      buySignals b < buySignals a →
      actionOf a = "BUY" → actionOf b = "BUY" →
      confidenceOf b ≤ confidenceOf a := by
  intro a b _ hb ha hb'
  have h1 := (action_eq_buy_iff a).1 ha
  have h2 := (action_eq_buy_iff b).1 hb'
  simp only [confidenceOf, gt_iff_lt, if_pos h1, if_pos h2]
  omega

/-- Witness for C6: one BUY vote (confidence 68) against two BUY
votes (confidence 76), both with zero SELL votes. -/
theorem confidence_monotone_in_votes_witness :
    confidenceOf exOneBuyVote ≤ confidenceOf exTwoBuyVotes :=
  confidence_monotone_in_votes exTwoBuyVotes exOneBuyVote
    (by decide) (by decide) (by decide) (by decide)

/-- C4 counterexample, exhibiting one failure for each change the
amendment makes.  (1) BUY with support (200) above the entry (100):
the claim's hypotheses hold (entry*0.985 > 0, resistance > entry) yet
the returned stop_loss (200 = max(support, entry*0.985)) is not below
the entry — forcing the extra hypothesis support < entry.  (2) BUY at
entry 0.01 with support < entry: the returned (rounded) stop_loss
equals the returned entry (both 0.01), so the strict ordering can
only be asserted of the pre-rounding values.  (3) SELL with support
(200) above the entry (100): the returned take_profit
(200 = max(support, entry*0.98)) is not below the entry.  (4) SELL
with resistance (90) below the entry (100): the stop_loss
(90 = min(resistance, entry*1.015)) is not above the entry.  (5) SELL
at the negative entry -100: entry*0.98 = -98 exceeds the entry, so
take_profit is not below it — the SELL clause, stated without any
hypotheses, needs support < entry, resistance > entry and entry > 0. -/
theorem price_ordering_counterexample :
    (actionOf exSupportAboveEntry = "BUY" ∧
      0 < entryOf exSupportAboveEntry * (985/1000) ∧
      entryOf exSupportAboveEntry < exSupportAboveEntry.resistance ∧
      List.lookup "entry" (generateSignalFromIndicators exSupportAboveEntry "1h") =
        some (.num (some 100)) ∧
      List.lookup "stop_loss" (generateSignalFromIndicators exSupportAboveEntry "1h") =
        some (.num (some 200)) ∧
      ¬(stopLossVal exSupportAboveEntry < entryOf exSupportAboveEntry)) ∧
    (actionOf exRoundCollapse = "BUY" ∧
      0 < entryOf exRoundCollapse * (985/1000) ∧
      entryOf exRoundCollapse < exRoundCollapse.resistance ∧
      exRoundCollapse.support < entryOf exRoundCollapse ∧
      List.lookup "entry" (generateSignalFromIndicators exRoundCollapse "1h") =
        some (.num (some (1/100))) ∧
      List.lookup "stop_loss" (generateSignalFromIndicators exRoundCollapse "1h") =
        some (.num (some (1/100))) ∧
      ¬((1 : ℚ)/100 < 1/100)) ∧
    (actionOf exSellSupportAbove = "SELL" ∧
      ¬(takeProfitVal exSellSupportAbove < entryOf exSellSupportAbove)) ∧
    (actionOf exSellLowResistance = "SELL" ∧
      ¬(entryOf exSellLowResistance < stopLossVal exSellLowResistance)) ∧
    (actionOf exSellNegEntry = "SELL" ∧
      ¬(takeProfitVal exSellNegEntry < entryOf exSellNegEntry)) := by
  refine ⟨⟨?_, ?_, ?_, ?_, ?_, ?_⟩, ⟨?_, ?_, ?_, ?_, ?_, ?_, ?_⟩,
    ⟨?_, ?_⟩, ⟨?_, ?_⟩, ⟨?_, ?_⟩⟩ <;> decide

/-- C4 amended: the strict ordering stop_loss < entry < take_profit
for BUY (take_profit < entry < stop_loss for SELL) holds for the
computed, pre-rounding prices — rounding to 2 decimals can collapse
the strict inequalities, as the counterexample exhibits — once the
missing hypothesis support < entry is added to the BUY clause, and
the SELL clause receives the hypotheses entry > 0, resistance > entry
and support < entry, each of whose failure the counterexample
exhibits. -/
theorem price_ordering_amended :
    ∀ i : IndicatorInput,
      (actionOf i = "BUY" → 0 < entryOf i * (985/1000) →
        entryOf i < i.resistance → i.support < entryOf i →
        stopLossVal i < entryOf i ∧ entryOf i < takeProfitVal i) ∧
      (actionOf i = "SELL" → 0 < entryOf i →
        entryOf i < i.resistance → i.support < entryOf i →
        takeProfitVal i < entryOf i ∧ entryOf i < stopLossVal i) := by
  intro i
  constructor
  · intro hB h0 hres hsup
    have he : 0 < entryOf i := by nlinarith
    constructor
    · have : stopLossVal i = pyMax i.support (entryOf i * (985/1000)) := by
        simp [stopLossVal, hB]
      rw [this]
      exact pyMax_lt hsup (by nlinarith)
    · have : takeProfitVal i = pyMin i.resistance (entryOf i * (102/100)) := by
        simp [takeProfitVal, hB]
      rw [this]
      exact lt_pyMin hres (by nlinarith)
  · intro hS he hres hsup
    have hne : actionOf i ≠ "BUY" := by rw [hS]; decide
    constructor
    · have : takeProfitVal i = pyMax i.support (entryOf i * (98/100)) := by
        simp [takeProfitVal, hS, hne]
      rw [this]
      exact pyMax_lt hsup (by nlinarith)
    · have : stopLossVal i = pyMin i.resistance (entryOf i * (1015/1000)) := by
        simp [stopLossVal, hS, hne]
      rw [this]
      exact lt_pyMin hres (by nlinarith)

/-- Witness for the amended C4 at a BUY input with support below and
resistance above the entry. -/
theorem price_ordering_amended_witness :
    stopLossVal exBuyOrdered < entryOf exBuyOrdered ∧
    entryOf exBuyOrdered < takeProfitVal exBuyOrdered :=
  (price_ordering_amended exBuyOrdered).1
    (by decide) (by decide) (by decide) (by decide)

/-- C3 counterexample: a 20-row table in which the headers `Open`
and `open ` both normalize to `open`.  All four required columns are
present, 20 valid rows remain after cleaning, yet `analyze_csv_data`
raises inside `pd.to_numeric` on the duplicated selection and returns
the wrapped "CSV analysis failed" ErrorSignal instead of a
technical_indicators success. -/
theorem tabular_success_no_error_counterexample :
    hasRequiredCols csvTableDup = true ∧
    20 ≤ (cleanRows csvTableDup).length ∧
    List.lookup "analysis_type" (analyzeCsvData csvTableDup "1h") =
      some (.s "error") ∧
    List.lookup "error" (analyzeCsvData csvTableDup "1h") = some (.b true) := by
  exact ⟨by decide, by decide, by decide, by decide⟩

/-- C3 amended: whenever all four required columns are present after
normalization, no required column label is duplicated after
normalization, and at least 20 valid rows remain, the tabular path
returns analysis_type = "technical_indicators" and no error field;
an indicator below its warm-up window (such as sma_50 with fewer than
50 rows) is NaN and its rule casts no vote rather than erroring. -/
theorem tabular_success_no_error :
    (∀ (t : RawTable) (tf : String), hasRequiredCols t = true →
      hasDuplicateRequired t = false →
      20 ≤ (cleanRows t).length →
      List.lookup "analysis_type" (analyzeCsvData t tf) =
        some (.s "technical_indicators") ∧
      List.lookup "error" (analyzeCsvData t tf) = none) ∧
    (∀ closes : List ℚ, closes.length < 50 → smaLast 50 closes = none) ∧
    (∀ t : RawTable, (cleanRows t).length < 50 →
      (indicatorInputOf (cleanRows t)).sma_50 = none) ∧
    (∀ i : IndicatorInput, i.sma_50 = none → ruleTrend i = none) := by
  refine ⟨?_, ?_, ?_, ?_⟩
  · intro t tf h1 hdup h2
    unfold analyzeCsvData
    rw [if_pos h1, hdup, if_neg Bool.false_ne_true,
      if_neg (Nat.not_lt.mpr h2)]
    exact ⟨rfl, rfl⟩
  · intro closes h
    simp [smaLast]
    omega
  · intro t h
    simp [indicatorInputOf, smaLast]
    omega
  · intro i h
    cases h20 : i.sma_20 <;> simp [ruleTrend, h, h20, ogt, olt]

/-- Witness for C3 on a 20-row table with unique required labels
(sma_50 not warmed up). -/
theorem tabular_success_no_error_witness :
    List.lookup "analysis_type" (analyzeCsvData csvTable20 "1h") =
      some (.s "technical_indicators") ∧
    List.lookup "error" (analyzeCsvData csvTable20 "1h") = none :=
  tabular_success_no_error.1 csvTable20 "1h" (by decide) (by decide) (by decide)

/-- C5 counterexample: on a 20-row table whose `Open` and `open `
headers both normalize to `open`, the required columns are all
present and 20 valid rows remain, yet the result is the wrapped
"CSV analysis failed" ErrorSignal — neither of the two claimed
messages — and validation does not pass to indicator computation. -/
theorem tabular_validation_errors_counterexample :
    hasRequiredCols csvTableDup = true ∧
    20 ≤ (cleanRows csvTableDup).length ∧
    List.lookup "message" (analyzeCsvData csvTableDup "1h") =
      some (.s ("CSV analysis failed: " ++ pandasToNumericError)) ∧
    "CSV analysis failed: " ++ pandasToNumericError ≠
      "Invalid CSV format. Required columns: Open, High, Low, Close" ∧
    "CSV analysis failed: " ++ pandasToNumericError ≠
      "Insufficient data for analysis (minimum 20 candles required)" ∧
    analyzeCsvData csvTableDup "1h" ≠
      calculateIndicators (cleanRows csvTableDup) "1h" := by
  exact ⟨by decide, by decide, by decide, by decide, by decide, by decide⟩

/-- C5 amended: a missing required column (after
lowercase/strip/synonym normalization) produces the invalid-format
ErrorSignal; a required column label duplicated after normalization
produces the wrapped "CSV analysis failed" ErrorSignal (the
numeric-coercion loop raises on the duplicated selection); fewer than
20 valid rows after cleaning produces the insufficient-data
ErrorSignal; otherwise validation passes through to indicator
computation. -/
theorem tabular_validation_errors :
    ∀ (t : RawTable) (tf : String),
      (hasRequiredCols t = false →
        analyzeCsvData t tf = generateErrorSignal
          "Invalid CSV format. Required columns: Open, High, Low, Close") ∧
      (hasRequiredCols t = true → hasDuplicateRequired t = true →
        analyzeCsvData t tf = generateErrorSignal
          ("CSV analysis failed: " ++ pandasToNumericError)) ∧
      (hasRequiredCols t = true → hasDuplicateRequired t = false →
        (cleanRows t).length < 20 →
        analyzeCsvData t tf = generateErrorSignal
          "Insufficient data for analysis (minimum 20 candles required)") ∧
      (hasRequiredCols t = true → hasDuplicateRequired t = false →
        20 ≤ (cleanRows t).length →
        analyzeCsvData t tf = calculateIndicators (cleanRows t) tf) ∧
      (∀ msg, List.lookup "message" (generateErrorSignal msg) = some (.s msg)) := by
  intro t tf
  refine ⟨?_, ?_, ?_, ?_, fun _ => rfl⟩
  · intro h
    unfold analyzeCsvData
    rw [h, if_neg Bool.false_ne_true]
  · intro h1 hdup
    unfold analyzeCsvData
    rw [if_pos h1, if_pos hdup]
  · intro h1 hdup h2
    unfold analyzeCsvData
    rw [if_pos h1, hdup, if_neg Bool.false_ne_true, if_pos h2]
  · intro h1 hdup h2
    unfold analyzeCsvData
    rw [if_pos h1, hdup, if_neg Bool.false_ne_true,
      if_neg (Nat.not_lt.mpr h2)]

/-- Witness for C5: a table without a `low` column, a
duplicate-label table, a 19-row table, and a passing 20-row table. -/
theorem tabular_validation_errors_witness :
    analyzeCsvData csvTableNoLow "1h" = generateErrorSignal
      "Invalid CSV format. Required columns: Open, High, Low, Close" ∧
    analyzeCsvData csvTableDup "1h" = generateErrorSignal
      ("CSV analysis failed: " ++ pandasToNumericError) ∧
    analyzeCsvData csvTable19 "1h" = generateErrorSignal
      "Insufficient data for analysis (minimum 20 candles required)" ∧
    analyzeCsvData csvTable20 "1h" = calculateIndicators (cleanRows csvTable20) "1h" :=
  ⟨(tabular_validation_errors csvTableNoLow "1h").1 (by decide),
   (tabular_validation_errors csvTableDup "1h").2.1 (by decide) (by decide),
   (tabular_validation_errors csvTable19 "1h").2.2.1 (by decide) (by decide) (by decide),
   (tabular_validation_errors csvTable20 "1h").2.2.2.1 (by decide) (by decide) (by decide)⟩


/-- C7: the pattern flags are set exactly by the mean line angle —
bullish iff it exceeds 10 degrees, bearish iff it is below -10
degrees — the flags are never both true, and with no detected lines
both flags are false and the line count is 0. -/
theorem pattern_classification :
    ∀ (angle : LineSeg → ℚ) (lines : Option (List LineSeg)),
      ¬((detectChartPatterns angle lines).bullish_pattern = true ∧
        (detectChartPatterns angle lines).bearish_pattern = true) ∧
      (lines = none → detectChartPatterns angle lines =
        { trend_lines := 0, bullish_pattern := false, bearish_pattern := false }) ∧
      (lines = some [] → detectChartPatterns angle lines =
        { trend_lines := 0, bullish_pattern := false, bearish_pattern := false }) ∧
      (∀ l, lines = some l →
        (detectChartPatterns angle lines).trend_lines = l.length ∧
        ((detectChartPatterns angle lines).bullish_pattern = true ↔
          10 < meanAngle angle l) ∧
        ((detectChartPatterns angle lines).bearish_pattern = true ↔
          meanAngle angle l < -10)) := by
  intro angle lines
  cases lines with
  | none =>
    refine ⟨by simp [detectChartPatterns], fun _ => rfl, by simp, by simp⟩
  | some l =>
    have hmain : ∀ l2 : List LineSeg,
        (detectChartPatterns angle (some l2)).trend_lines = l2.length ∧
        ((detectChartPatterns angle (some l2)).bullish_pattern = true ↔
          10 < meanAngle angle l2) ∧
        ((detectChartPatterns angle (some l2)).bearish_pattern = true ↔
          meanAngle angle l2 < -10) := by
      intro l2
      by_cases h1 : 10 < meanAngle angle l2
      · have h2 : ¬(meanAngle angle l2 < -10) := by linarith
        simp [detectChartPatterns, h1, h2]
      · by_cases h2 : meanAngle angle l2 < -10
        · simp [detectChartPatterns, h1, h2]
        · simp [detectChartPatterns, h1, h2]
    refine ⟨?_, by simp, ?_, ?_⟩
    · rintro ⟨hb1, hb2⟩
      have := (hmain l).2.1.mp hb1
      have := (hmain l).2.2.mp hb2
      linarith
    · intro h
      obtain rfl : l = [] := by injection h
      have hm : meanAngle angle ([] : List LineSeg) = 0 := by simp [meanAngle]
      have h1 : ¬(10 < meanAngle angle ([] : List LineSeg)) := by
        rw [hm]; norm_num
      have h2 : ¬(meanAngle angle ([] : List LineSeg) < -10) := by
        rw [hm]; norm_num
      simp [detectChartPatterns, h1, h2]
    · intro l2 h
      obtain rfl : l = l2 := by injection h
      exact hmain l

/-- Witness for C7: a single detected line with angle 15 degrees. -/
theorem pattern_classification_witness :
    (detectChartPatterns (fun _ => (15 : ℚ)) (some [((0 : ℤ), (0 : ℤ), (1 : ℤ), (1 : ℤ))])).trend_lines = 1 ∧
    ((detectChartPatterns (fun _ => (15 : ℚ)) (some [((0 : ℤ), (0 : ℤ), (1 : ℤ), (1 : ℤ))])).bullish_pattern = true ↔
      10 < meanAngle (fun _ => (15 : ℚ)) [((0 : ℤ), (0 : ℤ), (1 : ℤ), (1 : ℤ))]) ∧
    ((detectChartPatterns (fun _ => (15 : ℚ)) (some [((0 : ℤ), (0 : ℤ), (1 : ℤ), (1 : ℤ))])).bearish_pattern = true ↔
      meanAngle (fun _ => (15 : ℚ)) [((0 : ℤ), (0 : ℤ), (1 : ℤ), (1 : ℤ))] < -10) :=
  (pattern_classification (fun _ => (15 : ℚ))
    (some [((0 : ℤ), (0 : ℤ), (1 : ℤ), (1 : ℤ))])).2.2.2 _ rfl

/-- C8: the image-path signal is BUY with confidence 75 when the
bullish flag is set, SELL with confidence 75 when only the bearish
flag is set, HOLD with confidence 60 otherwise; price levels come
from the sampled base price with fixed multipliers (BUY:
TP = entry*1.025, SL = entry*0.985; SELL: TP = entry*0.975,
SL = entry*1.015; HOLD: TP = SL = entry), and the action and
confidence do not depend on the sampled base price. -/
theorem image_signal_scoring :
    ∀ (p : Patterns) (tf : String) (bp : ℚ),
      (p.bullish_pattern = true →
        List.lookup "action" (generateImageBasedSignal p tf bp) = some (.s "BUY") ∧
        List.lookup "confidence" (generateImageBasedSignal p tf bp) = some (.s "75%") ∧
        List.lookup "take_profit" (generateImageBasedSignal p tf bp) =
          some (.num (some (round2 (bp * (1025/1000))))) ∧
        List.lookup "stop_loss" (generateImageBasedSignal p tf bp) =
          some (.num (some (round2 (bp * (985/1000)))))) ∧
      (p.bullish_pattern = false → p.bearish_pattern = true →
        List.lookup "action" (generateImageBasedSignal p tf bp) = some (.s "SELL") ∧
        List.lookup "confidence" (generateImageBasedSignal p tf bp) = some (.s "75%") ∧
        List.lookup "take_profit" (generateImageBasedSignal p tf bp) =
          some (.num (some (round2 (bp * (975/1000))))) ∧
        List.lookup "stop_loss" (generateImageBasedSignal p tf bp) =
          some (.num (some (round2 (bp * (1015/1000)))))) ∧
      (p.bullish_pattern = false → p.bearish_pattern = false →
        List.lookup "action" (generateImageBasedSignal p tf bp) = some (.s "HOLD") ∧
        List.lookup "confidence" (generateImageBasedSignal p tf bp) = some (.s "60%") ∧
        List.lookup "take_profit" (generateImageBasedSignal p tf bp) =
          some (.num (some (round2 bp))) ∧
        List.lookup "stop_loss" (generateImageBasedSignal p tf bp) =
          some (.num (some (round2 bp)))) ∧
      List.lookup "entry" (generateImageBasedSignal p tf bp) =
        some (.num (some (round2 bp))) ∧
      (∀ bp2 : ℚ,
        List.lookup "action" (generateImageBasedSignal p tf bp) =
          List.lookup "action" (generateImageBasedSignal p tf bp2) ∧
        List.lookup "confidence" (generateImageBasedSignal p tf bp) =
          List.lookup "confidence" (generateImageBasedSignal p tf bp2)) := by
  intro p tf bp
  obtain ⟨n, bull, bear⟩ := p
  have h75 : ("75%" : String) = Nat.repr 75 ++ "%" := rfl
  have h60 : ("60%" : String) = Nat.repr 60 ++ "%" := rfl
  cases bull <;> cases bear
  · refine ⟨fun h => by simp at h, fun _ h => by simp at h,
      fun _ _ => ⟨rfl, by rw [h60]; rfl, rfl, rfl⟩, rfl, fun _ => ⟨rfl, rfl⟩⟩
  · refine ⟨fun h => by simp at h,
      fun _ _ => ⟨rfl, by rw [h75]; rfl, rfl, rfl⟩,
      fun _ h => by simp at h, rfl, fun _ => ⟨rfl, rfl⟩⟩
  · refine ⟨fun _ => ⟨rfl, by rw [h75]; rfl, rfl, rfl⟩,
      fun h => by simp at h, fun h => by simp at h, rfl, fun _ => ⟨rfl, rfl⟩⟩
  · refine ⟨fun _ => ⟨rfl, by rw [h75]; rfl, rfl, rfl⟩,
      fun h => by simp at h, fun h => by simp at h, rfl, fun _ => ⟨rfl, rfl⟩⟩

/-- Witness for C8 at a bullish flag set and base price 2000. -/
theorem image_signal_scoring_witness :
    List.lookup "action" (generateImageBasedSignal
      { trend_lines := 3, bullish_pattern := true, bearish_pattern := false }
      "1h" 2000) = some (.s "BUY") ∧
    List.lookup "confidence" (generateImageBasedSignal
      { trend_lines := 3, bullish_pattern := true, bearish_pattern := false }
      "1h" 2000) = some (.s "75%") ∧
    List.lookup "take_profit" (generateImageBasedSignal
      { trend_lines := 3, bullish_pattern := true, bearish_pattern := false }
      "1h" 2000) = some (.num (some (round2 (2000 * (1025/1000))))) ∧
    List.lookup "stop_loss" (generateImageBasedSignal
      { trend_lines := 3, bullish_pattern := true, bearish_pattern := false }
      "1h" 2000) = some (.num (some (round2 (2000 * (985/1000))))) :=
  (image_signal_scoring
    { trend_lines := 3, bullish_pattern := true, bearish_pattern := false }
    "1h" 2000).1 rfl

/-- C9: when every one of the most recent 20 candles has
low ≤ close ≤ high, the support (minimum low over the last 20) and
resistance (maximum high over the last 20) computed for the scoring
input bracket the entry price (the last close). -/
theorem support_resistance_bracket :
    ∀ df : List Candle, df ≠ [] →
      (∀ c ∈ tail20 df, c.low ≤ c.close ∧ c.close ≤ c.high) →
      (indicatorInputOf df).support ≤ (indicatorInputOf df).current_price ∧
      (indicatorInputOf df).current_price ≤ (indicatorInputOf df).resistance := by
  intro df hne hcond
  have hdf : 0 < df.length := List.length_pos.mpr hne
  have hlen : 0 < (tail20 df).length := by
    simp only [tail20, List.length_drop]
    omega
  have htail : tail20 df ≠ [] := List.ne_nil_of_length_pos hlen
  have hlast : df.getLast? = (tail20 df).getLast? := by
    conv_lhs => rw [← List.take_append_drop (df.length - 20) df]
    exact List.getLast?_append_of_ne_nil _ htail
  set c := (tail20 df).getLast htail with hcdef
  have hc : (tail20 df).getLast? = some c := List.getLast?_eq_getLast _ htail
  have hcmem : c ∈ tail20 df := List.getLast_mem htail
  have hcp : (indicatorInputOf df).current_price = c.close := by
    show ((df.map Candle.close).getLast?).getD 0 = c.close
    rw [List.getLast?_map, hlast, hc]
    rfl
  obtain ⟨s, hs, hsle⟩ :=
    listMin_spec ((tail20 df).map Candle.low) c.low (List.mem_map_of_mem _ hcmem)
  obtain ⟨r, hr, hrge⟩ :=
    listMax_spec ((tail20 df).map Candle.high) c.high (List.mem_map_of_mem _ hcmem)
  have hsup : (indicatorInputOf df).support = s := by
    show (supportOf df).getD 0 = s
    unfold supportOf
    rw [hs]
    rfl
  have hres : (indicatorInputOf df).resistance = r := by
    show (resistanceOf df).getD 0 = r
    unfold resistanceOf
    rw [hr]
    rfl
  obtain ⟨h1, h2⟩ := hcond c hcmem
  constructor
  · rw [hsup, hcp]
    exact le_trans hsle h1
  · rw [hcp, hres]
    exact le_trans h2 hrge

/-- Witness for C9 on a concrete one-candle frame. -/
theorem support_resistance_bracket_witness :
    (indicatorInputOf exFrame).support ≤ (indicatorInputOf exFrame).current_price ∧
    (indicatorInputOf exFrame).current_price ≤ (indicatorInputOf exFrame).resistance :=
  support_resistance_bracket exFrame (by decide) (by decide)

/-- C10: every error dictionary carries action "HOLD" and the boolean
field error = True, and omits the timeframe field and the
indicators/patterns field that successful tabular and image signals
carry. -/
theorem error_signal_shape :
    ∀ msg : String,
      List.lookup "action" (generateErrorSignal msg) = some (.s "HOLD") ∧
      List.lookup "error" (generateErrorSignal msg) = some (.b true) ∧
      List.lookup "timeframe" (generateErrorSignal msg) = none ∧
      List.lookup "indicators" (generateErrorSignal msg) = none ∧
      List.lookup "patterns" (generateErrorSignal msg) = none ∧
      (∀ (i : IndicatorInput) (tf : String),
        List.lookup "timeframe" (generateSignalFromIndicators i tf) = some (.s tf) ∧
        List.lookup "indicators" (generateSignalFromIndicators i tf) ≠ none) ∧
      (∀ (p : Patterns) (tf : String) (bp : ℚ),
        List.lookup "timeframe" (generateImageBasedSignal p tf bp) = some (.s tf) ∧
        List.lookup "patterns" (generateImageBasedSignal p tf bp) ≠ none) := by
  intro msg
  refine ⟨rfl, rfl, rfl, rfl, rfl, ?_, ?_⟩
  · intro i tf
    exact ⟨rfl, by simp [generateSignalFromIndicators]⟩
  · intro p tf bp
    exact ⟨rfl, by simp [generateImageBasedSignal]⟩

/-- Witness for C10 at a concrete error message. -/
theorem error_signal_shape_witness :
    List.lookup "action" (generateErrorSignal "CSV analysis failed: boom") =
      some (.s "HOLD") ∧
    List.lookup "error" (generateErrorSignal "CSV analysis failed: boom") =
      some (.b true) ∧
    List.lookup "timeframe" (generateErrorSignal "CSV analysis failed: boom") = none :=
  ⟨(error_signal_shape "CSV analysis failed: boom").1,
   (error_signal_shape "CSV analysis failed: boom").2.1,
   (error_signal_shape "CSV analysis failed: boom").2.2.1⟩

end Scalper
